import Mathlib

/-!
Shallow embedding of `src/main.py`: a FastAPI service exposing CRUD endpoints
over a `processed_agent_data` table, plus a websocket endpoint that keeps a
module-level `subscriptions` set and a `send_data_to_subscribers` broadcast
helper.

Modelling conventions:
- The service stores and returns its float columns without any arithmetic, so
  float values are embedded as `Int` (any type with decidable equality is a
  faithful model of pure data movement).
- Python `datetime` values are embedded as a `DateTime` record of calendar
  fields; `datetime.fromisoformat` (an external stdlib collaborator) is
  modelled by an executable ISO-8601 parser over the formats the service uses.
- A database `Store` is a list of rows plus the next auto-increment primary
  key; each handler is a pure function from its arguments and the store to the
  new store and an `Except PyExc Response` (a raised exception is `.error`).
- The blanket `except Exception as e: raise HTTPException(500, str(e))`
  wrapper that every handler body sits inside is `guard500`.
-/

namespace MainPy

/-- Python `datetime` value as stored in the `timestamp` column. -/
structure DateTime where
  year : Nat
  month : Nat
  day : Nat
  hour : Nat
  minute : Nat
  second : Nat
deriving DecidableEq

/-- Numeric value of a two-digit field of an ISO-8601 string. -/
def d2 (a b : Char) : Option Nat :=
  if a.isDigit && b.isDigit then some ((a.toNat - 48) * 10 + (b.toNat - 48))
  else none

/-- Numeric value of the four-digit year field of an ISO-8601 string. -/
def d4 (a b c d : Char) : Option Nat :=
  if a.isDigit && b.isDigit && c.isDigit && d.isDigit then
    some ((((a.toNat - 48) * 10 + (b.toNat - 48)) * 10 + (c.toNat - 48)) * 10
      + (d.toNat - 48))
  else none

/-- Range-checked constructor for a calendar value. -/
def mkDateTime? (y mo dd h mi s : Nat) : Option DateTime :=
  if 1 ≤ mo && mo ≤ 12 && 1 ≤ dd && dd ≤ 31 && h ≤ 23 && mi ≤ 59 && s ≤ 59 then
    some ⟨y, mo, dd, h, mi, s⟩
  else none

/-- Modelled external collaborator: Python `datetime.fromisoformat`, the parse
used for the `timestamp` field of `AgentData` (src/main.py lines 45-60; the
pydantic `datetime` field coercion applies the same ISO-8601 parse to text
input).  Accepts `YYYY-MM-DD` and `YYYY-MM-DDTHH:MM:SS`; anything else is a
parse failure, which pydantic turns into a validation error before the
handler runs. -/
def fromisoformat (s : String) : Option DateTime :=
  match s.toList with
  | [y1, y2, y3, y4, '-', mo1, mo2, '-', dd1, dd2] => do
      let y ← d4 y1 y2 y3 y4
      let mo ← d2 mo1 mo2
      let dd ← d2 dd1 dd2
      mkDateTime? y mo dd 0 0 0
  | [y1, y2, y3, y4, '-', mo1, mo2, '-', dd1, dd2, 'T',
     h1, h2, ':', mi1, mi2, ':', s1, s2] => do
      let y ← d4 y1 y2 y3 y4
      let mo ← d2 mo1 mo2
      let dd ← d2 dd1 dd2
      let h ← d2 h1 h2
      let mi ← d2 mi1 mi2
      let ss ← d2 s1 s2
      mkDateTime? y mo dd h mi ss
  | _ => none

/-- Pydantic model `AccelerometerData` (src/main.py lines 34-37). -/
structure AccelerometerData where
  x : Int
  y : Int
  z : Int
deriving DecidableEq

/-- Pydantic model `GpsData` (src/main.py lines 40-42). -/
structure GpsData where
  latitude : Int
  longitude : Int
deriving DecidableEq

/-- Pydantic model `AgentData` after validation: its `timestamp` has already
been coerced to a `datetime` (src/main.py lines 45-60). -/
structure AgentData where
  user_id : Int
  accelerometer : AccelerometerData
  gps : GpsData
  timestamp : DateTime
deriving DecidableEq

/-- Pydantic model `ProcessedAgentData`, the request body of POST and PUT
(src/main.py lines 63-65). -/
structure ProcessedAgentData where
  road_state : String
  agent_data : AgentData
deriving DecidableEq

/-- Pydantic model `ProcessedAgentDataInDB`: one flattened row of the
`processed_agent_data` table (src/main.py lines 68-77, table lines 19-31). -/
structure ProcessedAgentDataInDB where
  id : Int
  road_state : String
  user_id : Int
  x : Int
  y : Int
  z : Int
  latitude : Int
  longitude : Int
  timestamp : DateTime
deriving DecidableEq

/-- Raw request body of POST and PUT before validation: the `timestamp`
arrives as JSON text. -/
structure RawAgentData where
  user_id : Int
  accelerometer : AccelerometerData
  gps : GpsData
  timestamp : String
deriving DecidableEq

/-- Raw `ProcessedAgentData` request body before validation. -/
structure RawProcessedAgentData where
  road_state : String
  agent_data : RawAgentData
deriving DecidableEq

/-- Python exceptions the embedded handlers can raise. -/
inductive PyExc where
  /-- a fastapi `HTTPException(status_code, detail)` -/
  | http (status : Nat) (detail : String)
  /-- a `TypeError`, e.g. subscripting `None` -/
  | typeError (detail : String)
  /-- a `KeyError` from `set.remove` on an absent element -/
  | keyError
  /-- a FastAPI 422: the pydantic request-body validation failed before the
  handler ran -/
  | validationError
  /-- a websocket send on a closed connection -/
  | connectionClosed
deriving DecidableEq

/-- Detail text of a `TypeError` on subscripting `None`. -/
def noneTypeDetail : String := "NoneType object is not subscriptable"

/-- Detail text of the 404 raised by the read handler. -/
def recordNotFoundDetail : String := "Record not found"

/-- Python `str(e)` for the exceptions above (starlette `HTTPException`
renders as `"{status_code}: {detail}"`). -/
def excStr : PyExc → String
  | .http s d => toString s ++ ": " ++ d
  | .typeError d => d
  | .keyError => "KeyError"
  | .validationError => "ValidationError"
  | .connectionClosed => "ConnectionClosed"

/-- Successful response bodies of the endpoints. -/
inductive Response where
  /-- create returns the literal body `{"message": "OK"}`; it carries no
  record and no id -/
  | messageOK
  /-- one flattened record -/
  | record (r : ProcessedAgentDataInDB)
  /-- the list endpoint's body -/
  | records (rs : List ProcessedAgentDataInDB)
deriving DecidableEq

/-- Database state: the `processed_agent_data` table rows plus the next value
of the auto-increment `id` primary key. -/
structure Store where
  rows : List ProcessedAgentDataInDB
  nextId : Int
deriving DecidableEq

/-- SELECT ... WHERE id = record_id, fetchone(): first row matching the id
(src/main.py line 115 and lines 192-193). -/
def fetchone (db : Store) (record_id : Int) : Option ProcessedAgentDataInDB :=
  db.rows.find? (fun r => r.id == record_id)

/-- INSERT of the eight supplied columns; the store assigns `nextId` as the
committed primary key (src/main.py lines 128-138). -/
def insertRow (db : Store) (data : ProcessedAgentData) : Store :=
  { rows := db.rows ++
      [{ id := db.nextId
         road_state := data.road_state
         user_id := data.agent_data.user_id
         x := data.agent_data.accelerometer.x
         y := data.agent_data.accelerometer.y
         z := data.agent_data.accelerometer.z
         latitude := data.agent_data.gps.latitude
         longitude := data.agent_data.gps.longitude
         timestamp := data.agent_data.timestamp }]
    nextId := db.nextId + 1 }

/-- Blanket `except Exception as e: raise HTTPException(status_code=500,
detail=str(e))` that wraps every handler body (src/main.py lines 121-122,
140-141, 149-150, 185-186, 209-210).  `HTTPException` subclasses `Exception`,
so a 404 raised inside the `try` block is also caught and re-raised as a 500
whose detail is `str(e)`. -/
def guard500 {α : Type} : Except PyExc α → Except PyExc α
  | .ok a => .ok a
  | .error e => .error (.http 500 (excStr e))

/-- Body of the `try` block of the GET-one handler (src/main.py lines
114-120): fetch the row; return it flattened, or raise a 404. -/
def read_body (record_id : Int) (db : Store) : Except PyExc Response :=
  match fetchone db record_id with
  | some record => .ok (.record record)
  | none => .error (.http 404 recordNotFoundDetail)

/-- GET `/processed_agent_data/{processed_agent_data_id}` handler
`read_processed_agent_data` (src/main.py lines 112-122). -/
def read_processed_agent_data (record_id : Int) (db : Store) :
    Except PyExc Response :=
  guard500 (read_body record_id db)

/-- GET `/processed_agent_data/` handler `list_processed_agent_data`
(src/main.py lines 144-150): returns every row. -/
def list_processed_agent_data (db : Store) : Except PyExc Response :=
  guard500 (.ok (.records db.rows))

/-- Python dict `new_data` built by the update handler (src/main.py lines
156-165): the eight mutable columns taken from the request body. -/
structure NewData where
  road_state : String
  user_id : Int
  x : Int
  y : Int
  z : Int
  latitude : Int
  longitude : Int
  timestamp : DateTime
deriving DecidableEq

/-- Construction of `new_data` from the validated request body. -/
def mkNewData (data : ProcessedAgentData) : NewData :=
  { road_state := data.road_state
    user_id := data.agent_data.user_id
    x := data.agent_data.accelerometer.x
    y := data.agent_data.accelerometer.y
    z := data.agent_data.accelerometer.z
    latitude := data.agent_data.gps.latitude
    longitude := data.agent_data.gps.longitude
    timestamp := data.agent_data.timestamp }

/-- SET clause of the UPDATE statement (src/main.py lines 167-171): replaces
every mutable column of a row with the `new_data` values; `id` is not in the
SET list and is left as it was. -/
def setColumns (nd : NewData) (r : ProcessedAgentDataInDB) :
    ProcessedAgentDataInDB :=
  { r with road_state := nd.road_state
           user_id := nd.user_id
           x := nd.x
           y := nd.y
           z := nd.z
           latitude := nd.latitude
           longitude := nd.longitude
           timestamp := nd.timestamp }

/-- UPDATE ... WHERE id = record_id: the SET clause is applied to every row
whose `id` matches, and to no other row (src/main.py lines 167-171). -/
def applyUpdate (db : Store) (record_id : Int) (nd : NewData) : Store :=
  { db with rows := db.rows.map (fun r =>
      if r.id == record_id then setColumns nd r else r) }

/-- Response row the update handler constructs from `record_id` and
`new_data` (src/main.py lines 174-184); it is built whether or not any row
matched. -/
def updatedRow (record_id : Int) (nd : NewData) : ProcessedAgentDataInDB :=
  { id := record_id
    road_state := nd.road_state
    user_id := nd.user_id
    x := nd.x
    y := nd.y
    z := nd.z
    latitude := nd.latitude
    longitude := nd.longitude
    timestamp := nd.timestamp }

/-- PUT `/processed_agent_data/{processed_agent_data_id}` handler
`update_processed_agent_data` (src/main.py lines 153-186): executes the
UPDATE, commits, and returns the echoed row; there is no check of how many
rows matched and no 404 path. -/
def update_processed_agent_data (record_id : Int) (data : ProcessedAgentData)
    (db : Store) : Store × Except PyExc Response :=
  let nd := mkNewData data
  (applyUpdate db record_id nd, guard500 (.ok (.record (updatedRow record_id nd))))

/-- Body of the `try` block of the DELETE handler (src/main.py lines
191-208): fetch the row, execute the DELETE, commit, then build the response
by subscripting the fetched row — subscripting `None` raises a `TypeError`
when no row matched. -/
def delete_body (record_id : Int) (db : Store) :
    Store × Except PyExc Response :=
  let data_to_delete := fetchone db record_id
  let db2 : Store := { db with rows := db.rows.filter (fun r => !(r.id == record_id)) }
  match data_to_delete with
  | some row =>
      (db2, .ok (.record
        { id := row.id
          road_state := row.road_state
          user_id := row.user_id
          x := row.x
          y := row.y
          z := row.z
          latitude := row.latitude
          longitude := row.longitude
          timestamp := row.timestamp }))
  | none => (db2, .error (.typeError noneTypeDetail))

/-- DELETE `/processed_agent_data/{processed_agent_data_id}` handler
`delete_processed_agent_data` (src/main.py lines 189-210). -/
def delete_processed_agent_data (record_id : Int) (db : Store) :
    Store × Except PyExc Response :=
  let r := delete_body record_id db
  (r.1, guard500 r.2)

/-- One websocket subscriber: its identity and whether its connection is
still open (a send on a closed connection raises). -/
structure Subscriber where
  sid : Nat
  alive : Bool
deriving DecidableEq

/-- Process state: the database plus the module-level `subscriptions` set
(src/main.py line 82) and the log of websocket messages successfully
delivered, as (subscriber id, message text) pairs. -/
structure AppState where
  db : Store
  subscriptions : List Subscriber
  delivered : List (Nat × String)
deriving DecidableEq

/-- Python `set.add` on the subscriptions set (src/main.py line 88):
idempotent insertion. -/
def pySetAdd (subs : List Subscriber) (w : Subscriber) : List Subscriber :=
  if subs.contains w then subs else subs ++ [w]

/-- Python `set.remove` on the subscriptions set (src/main.py line 93):
removes the element when present, raises `KeyError` when absent. -/
def pySetRemove (subs : List Subscriber) (w : Subscriber) :
    Except PyExc (List Subscriber) :=
  if subs.contains w then .ok (subs.filter (fun s => !(s == w)))
  else .error .keyError

/-- Websocket connect path of `websocket_endpoint` (src/main.py lines
86-88): accept then `subscriptions.add(websocket)`. -/
def websocket_connect (st : AppState) (w : Subscriber) : AppState :=
  { st with subscriptions := pySetAdd st.subscriptions w }

/-- Websocket disconnect path of `websocket_endpoint` (src/main.py lines
92-93): on `WebSocketDisconnect`, `subscriptions.remove(websocket)` — which
raises `KeyError` if the subscriber is not in the set. -/
def websocket_disconnect (st : AppState) (w : Subscriber) :
    Except PyExc AppState :=
  match pySetRemove st.subscriptions w with
  | .ok subs => .ok { st with subscriptions := subs }
  | .error e => .error e

/-- Loop body of `send_data_to_subscribers` (src/main.py lines 96-98): send
to each subscriber in iteration order; a send on a closed connection raises,
aborting the loop — there is no try/except and no unregister around the
send.  Returns the successful deliveries in order and the raised exception,
if any. -/
def sendLoop (subs : List Subscriber) (msg : String) :
    List (Nat × String) × Option PyExc :=
  match subs with
  | [] => ([], none)
  | w :: ws =>
      if w.alive then
        let rest := sendLoop ws msg
        ((w.sid, msg) :: rest.1, rest.2)
      else ([], some .connectionClosed)

/-- Broadcast helper `send_data_to_subscribers` (src/main.py lines 96-98):
iterates the module-level set and sends; it never modifies `subscriptions`,
and a per-subscriber failure propagates to its caller. -/
def send_data_to_subscribers (st : AppState) (msg : String) :
    AppState × Option PyExc :=
  let r := sendLoop st.subscriptions msg
  ({ st with delivered := st.delivered ++ r.1 }, r.2)

/-- POST `/processed_agent_data/` handler `create_processed_agent_data`
(src/main.py lines 125-141): INSERT the validated body, commit, return the
literal `{"message": "OK"}`.  The handler body contains no call to
`send_data_to_subscribers` and never touches `subscriptions` or the
websocket layer. -/
def create_processed_agent_data (data : ProcessedAgentData) (st : AppState) :
    AppState × Except PyExc Response :=
  ({ st with db := insertRow st.db data }, guard500 (.ok .messageOK))

/-- FastAPI request-body validation for `ProcessedAgentData`, performed
before the POST/PUT handler runs: the `timestamp` text must parse as
ISO-8601, otherwise the request is rejected with a validation error and the
handler body is never entered (src/main.py lines 45-60, 63-65). -/
def validateProcessedAgentData (raw : RawProcessedAgentData) :
    Except PyExc ProcessedAgentData :=
  match fromisoformat raw.agent_data.timestamp with
  | some t => .ok
      { road_state := raw.road_state
        agent_data :=
          { user_id := raw.agent_data.user_id
            accelerometer := raw.agent_data.accelerometer
            gps := raw.agent_data.gps
            timestamp := t } }
  | none => .error .validationError

/-- Full POST endpoint: body validation, then the handler. -/
def create_endpoint (raw : RawProcessedAgentData) (st : AppState) :
    AppState × Except PyExc Response :=
  match validateProcessedAgentData raw with
  | .error e => (st, .error e)
  | .ok data => create_processed_agent_data data st

/-- Identifier values of one GET/PUT/DELETE request.  The route path declares
a `{processed_agent_data_id}` segment, but the handler signature's only
integer parameter is `record_id`, which does not match the path-parameter
name; under FastAPI's parameter binding `record_id` is therefore a query
parameter, and the path segment's value is never bound to anything the
handler can see. -/
structure Request where
  path_id : Int
  record_id : Int
deriving DecidableEq

/-- Routed GET-one endpoint: FastAPI hands the handler its `record_id` query
parameter (src/main.py lines 112-113). -/
def read_endpoint (req : Request) (db : Store) : Except PyExc Response :=
  read_processed_agent_data req.record_id db

/-- Routed PUT endpoint (src/main.py lines 153-154). -/
def update_endpoint (req : Request) (data : ProcessedAgentData) (db : Store) :
    Store × Except PyExc Response :=
  update_processed_agent_data req.record_id data db

/-- Routed DELETE endpoint (src/main.py lines 189-190). -/
def delete_endpoint (req : Request) (db : Store) :
    Store × Except PyExc Response :=
  delete_processed_agent_data req.record_id db

/-! Concrete sample values, used by witnesses and counterexamples. -/

/-- Timestamp of the specification's sample scenario. -/
def sampleDateTime : DateTime := ⟨2024, 1, 1, 0, 0, 0⟩

/-- Sample accelerometer reading (float literals of the scenario embedded as
integers; only data movement is at stake). -/
def sampleAccel : AccelerometerData := ⟨1, 2, 98⟩

/-- Sample GPS reading. -/
def sampleGps : GpsData := ⟨501, 305⟩

/-- Sample validated agent data. -/
def sampleAgentData : AgentData := ⟨7, sampleAccel, sampleGps, sampleDateTime⟩

/-- Sample validated request body. -/
def sampleInput : ProcessedAgentData := ⟨"pothole", sampleAgentData⟩

/-- Empty store whose next primary key is 1. -/
def emptyStore : Store := ⟨[], 1⟩

/-- Row the sample body commits as when inserted into the empty store. -/
def sampleRow : ProcessedAgentDataInDB :=
  ⟨1, "pothole", 7, 1, 2, 98, 501, 305, sampleDateTime⟩

/-- Store holding exactly the sample row. -/
def store1 : Store := ⟨[sampleRow], 2⟩

/-- Subscriber 1, connection open. -/
def liveSub1 : Subscriber := ⟨1, true⟩

/-- Subscriber 2, connection closed. -/
def deadSub2 : Subscriber := ⟨2, false⟩

/-- Subscriber 3, connection open. -/
def liveSub3 : Subscriber := ⟨3, true⟩

/-- App state with an empty store and no subscribers. -/
def initState : AppState := ⟨emptyStore, [], []⟩

/-- App state with an empty store and one live subscriber. -/
def oneSubState : AppState := ⟨emptyStore, [liveSub1], []⟩

/-- App state whose subscriptions iterate as live, dead, live. -/
def mixedSubState : AppState := ⟨emptyStore, [liveSub1, deadSub2, liveSub3], []⟩

/-- Sample broadcast message text. -/
def sampleMsg : String := "payload"

/-- Raw body with the sample scenario's well-formed timestamp text. -/
def rawGood : RawProcessedAgentData :=
  ⟨"pothole", ⟨7, sampleAccel, sampleGps, "2024-01-01T00:00:00"⟩⟩

/-- Raw body whose timestamp text is the specification's `"not-a-date"`. -/
def rawBad : RawProcessedAgentData :=
  ⟨"pothole", ⟨7, sampleAccel, sampleGps, "not-a-date"⟩⟩

/-- Validated request body with all eight mutable fields different from
`sampleInput`, used to exercise full-replacement updates. -/
def sampleInput2 : ProcessedAgentData :=
  ⟨"smooth", ⟨8, ⟨3, 4, 99⟩, ⟨502, 306⟩, ⟨2024, 2, 2, 1, 1, 1⟩⟩⟩

/-- Id carried by a response body, when it carries one at all: the create
body `{"message": "OK"}` carries none. -/
def responseRecordId : Except PyExc Response → Option Int
  | .ok (.record r) => some r.id
  | _ => none

/-! Helper lemmas about the store operations. -/

/-- Finding in an appended list when the left part has no match. -/
theorem find?_append_of_none {α : Type} (p : α → Bool) (l1 l2 : List α)
    (h : l1.find? p = none) : (l1 ++ l2).find? p = l2.find? p := by
  rw [List.find?_append, h, Option.none_or]

/-- Rows surviving `DELETE ... WHERE id = rid` never match the id they were
deleted by. -/
theorem find?_filter_not {α : Type} (p : α → Bool) (l : List α) :
    (l.filter (fun r => !(p r))).find? p = none := by
  rw [List.find?_filter]
  exact List.find?_eq_none.mpr (fun x _ => by simp)

/-- Rows updated by an id-preserving transformation are found exactly where
the original rows were. -/
theorem find?_map_of_pred_invariant {α : Type} (p : α → Bool) (f : α → α)
    (hf : ∀ x, p (f x) = p x) (l : List α) :
    (l.map f).find? p = (l.find? p).map f := by
  rw [List.find?_map]
  have hpf : (p ∘ f) = p := funext hf
  rw [hpf]

/-- Mapping a guarded transformation over rows none of which satisfy the
guard changes nothing. -/
theorem map_id_of_no_match {α : Type} (p : α → Bool) (f : α → α) :
    ∀ (l : List α), (∀ x ∈ l, p x = false) →
      l.map (fun r => if p r then f r else r) = l := by
  intro l
  induction l with
  | nil => intro _; rfl
  | cons a t ih =>
      intro hall
      have ha : p a = false := hall a (by simp)
      have ht : t.map (fun r => if p r then f r else r) = t :=
        ih (fun x hx => hall x (by simp [hx]))
      simp [ha, ht]

/-- UPDATE on a store with no matching row leaves every row unchanged. -/
theorem applyUpdate_of_absent (db : Store) (rid : Int) (nd : NewData)
    (h : fetchone db rid = none) : applyUpdate db rid nd = db := by
  unfold fetchone at h
  have hall := List.find?_eq_none.mp h
  cases db with
  | mk rows nextId =>
      unfold applyUpdate
      simp only [Store.mk.injEq, and_true]
      apply map_id_of_no_match (fun r => r.id == rid) (setColumns nd) rows
      intro x hx
      have hnx : ¬ (x.id == rid) = true := hall x hx
      cases hb : (x.id == rid) with
      | true => exact absurd hb hnx
      | false => rfl

/-- UPDATE on a store that has a matching row: the lookup afterwards finds
the fully replaced row, whose id is the matched one. -/
theorem fetchone_applyUpdate (db : Store) (rid : Int) (nd : NewData)
    (row : ProcessedAgentDataInDB) (h : fetchone db rid = some row) :
    fetchone (applyUpdate db rid nd) rid = some (updatedRow rid nd) := by
  unfold fetchone at h
  have hrow := List.find?_some h
  have hrid : row.id = rid := beq_iff_eq.mp hrow
  unfold fetchone applyUpdate
  rw [find?_map_of_pred_invariant]
  · show Option.map _ (List.find? _ db.rows) = _
    rw [h]
    simp [hrow, setColumns, updatedRow, hrid]
  · intro x
    cases hb : (x.id == rid) with
    | true => simpa [setColumns] using hb
    | false => simpa [setColumns] using hb

/-- Broadcast loop decomposition: live subscribers before the first closed
connection are delivered to, the closed connection raises, and everything
after it is skipped. -/
theorem sendLoop_split (msg : String) (bad : Subscriber)
    (hbad : bad.alive = false) :
    ∀ (pre post : List Subscriber), (∀ w ∈ pre, w.alive = true) →
      sendLoop (pre ++ bad :: post) msg =
        (pre.map (fun w => (w.sid, msg)), some .connectionClosed) := by
  intro pre
  induction pre with
  | nil =>
      intro post _
      simp [sendLoop, hbad]
  | cons a t ih =>
      intro post hall
      have ha : a.alive = true := hall a (by simp)
      have ht : ∀ w ∈ t, w.alive = true := fun w hw => hall w (by simp [hw])
      rw [List.cons_append]
      unfold sendLoop
      rw [ha]
      simp only [if_true]
      rw [ih post ht]
      rfl

/-- Set membership read off the Python-set model's `contains` field. -/
theorem contains_false_iff {α : Type} [DecidableEq α] (l : List α) (a : α) :
    l.contains a = false ↔ a ∉ l := by
  rw [← Bool.not_eq_true, List.contains_iff_exists_mem_beq]
  simp

/-! Claim theorems. -/

/-- C1: refuted — the create handler never invokes the broadcast dispatcher.
`create_processed_agent_data` commits the insert and returns the literal
`{"message": "OK"}` body; its body contains no call to
`send_data_to_subscribers` (which is dead code in the repository), so for
every validated input and every process state the subscription set and the
delivery log are untouched: no registered subscriber receives any broadcast
of the created record, where the claim requires exactly one message each. -/
theorem C1_create_never_publishes (data : ProcessedAgentData) (st : AppState) :
    (create_processed_agent_data data st).1.delivered = st.delivered ∧
    (create_processed_agent_data data st).1.subscriptions = st.subscriptions ∧
    (create_processed_agent_data data st).2 = .ok .messageOK :=
  ⟨rfl, rfl, rfl⟩

/-- C2: refuted — a read of a missing id surfaces as the 500 server-fault
response, not a 404-equivalent client error.  The handler raises
`HTTPException(404, "Record not found")` inside its `try` block, but the
blanket `except Exception as e` catches it (`HTTPException` subclasses
`Exception`) and re-raises `HTTPException(500, str(e))`, so the
caller-visible outcome is status 500 with detail `"404: Record not found"` —
the very server-fault shape the claim says NotFound is distinct from. -/
theorem C2_read_missing_is_500 (db : Store) (rid : Int)
    (h : fetchone db rid = none) :
    read_processed_agent_data rid db =
      .error (.http 500 (toString 404 ++ ": " ++ recordNotFoundDetail)) := by
  unfold read_processed_agent_data read_body
  rw [h]
  rfl

/-- C2 witness: reading id 1 from the empty store yields the 500 response. -/
theorem C2_read_missing_is_500_witness :
    read_processed_agent_data 1 emptyStore =
      .error (.http 500 (toString 404 ++ ": " ++ recordNotFoundDetail)) :=
  C2_read_missing_is_500 emptyStore 1 rfl

/-- C3 counterexample: id 1 is absent from the empty store, yet the update
handler returns a success payload (the echoed row), not a NotFound
report. -/
theorem C3_counterexample :
    fetchone emptyStore 1 = none ∧
    (update_processed_agent_data 1 sampleInput emptyStore).2 =
      .ok (.record sampleRow) :=
  ⟨rfl, rfl⟩

/-- C3 amended: for every id with no record in the store, the update handler
does not report NotFound — it commits an UPDATE matching zero rows (leaving
the store unchanged) and returns a success payload echoing the submitted
fields under the requested id. -/
theorem C3_update_missing_returns_success (db : Store) (rid : Int)
    (data : ProcessedAgentData) (h : fetchone db rid = none) :
    (update_processed_agent_data rid data db).2 =
      .ok (.record (updatedRow rid (mkNewData data))) ∧
    (update_processed_agent_data rid data db).1 = db := by
  refine ⟨rfl, ?_⟩
  show applyUpdate db rid (mkNewData data) = db
  exact applyUpdate_of_absent db rid (mkNewData data) h

/-- C3 witness: the amended behaviour at id 1 over the empty store. -/
theorem C3_update_missing_witness :
    (update_processed_agent_data 1 sampleInput emptyStore).2 =
      .ok (.record (updatedRow 1 (mkNewData sampleInput))) ∧
    (update_processed_agent_data 1 sampleInput emptyStore).1 = emptyStore :=
  C3_update_missing_returns_success emptyStore 1 sampleInput rfl

/-- C4: the missing-id half is refuted — deleting an absent id subscripts the
`None` returned by fetchone, raising a `TypeError` that the blanket except
converts into the 500 server-fault response, not a NotFound client error (the
DELETE is still committed first).  The present-id half holds: the row is
removed and its pre-delete snapshot is returned. -/
theorem C4_delete_behavior :
    delete_processed_agent_data 1 emptyStore =
      (emptyStore, .error (.http 500 noneTypeDetail)) ∧
    ∀ (db : Store) (rid : Int) (row : ProcessedAgentDataInDB),
      fetchone db rid = some row →
      (delete_processed_agent_data rid db).2 = .ok (.record row) ∧
      fetchone (delete_processed_agent_data rid db).1 rid = none := by
  refine ⟨rfl, ?_⟩
  intro db rid row h
  have hb : delete_body rid db =
      ({ db with rows := db.rows.filter (fun r => !(r.id == rid)) },
        .ok (.record row)) := by
    unfold delete_body
    rw [h]
  constructor
  · show guard500 (delete_body rid db).2 = .ok (.record row)
    rw [hb]
    rfl
  · show fetchone (delete_body rid db).1 rid = none
    rw [hb]
    exact find?_filter_not (fun r => r.id == rid) db.rows

/-- C4 witness: deleting id 1 from the one-row store returns the snapshot and
leaves no row with id 1. -/
theorem C4_delete_behavior_witness :
    (delete_processed_agent_data 1 store1).2 = .ok (.record sampleRow) ∧
    fetchone (delete_processed_agent_data 1 store1).1 1 = none :=
  C4_delete_behavior.2 store1 1 sampleRow rfl

/-- C5 counterexample: with subscribers iterated live, closed, live, the
broadcast delivers only to the first subscriber — the third, perfectly live
subscriber receives nothing; the closed subscriber is still registered
afterwards (no unregister anywhere in the dispatcher); and the send error
propagates to the dispatcher's caller instead of being swallowed. -/
theorem C5_counterexample :
    (send_data_to_subscribers mixedSubState sampleMsg).1.delivered =
      [(1, sampleMsg)] ∧
    (send_data_to_subscribers mixedSubState sampleMsg).1.subscriptions =
      [liveSub1, deadSub2, liveSub3] ∧
    (send_data_to_subscribers mixedSubState sampleMsg).2 =
      some .connectionClosed :=
  ⟨rfl, rfl, rfl⟩

/-- C5 amended: a per-subscriber delivery failure aborts the broadcast loop —
subscribers before the failing one in iteration order have already received
the message, subscribers after it receive nothing, the failing subscriber
remains registered (the dispatcher performs no unregister), and the error
propagates to whatever called `send_data_to_subscribers` (the create handler
is unaffected only because it never calls the dispatcher at all). -/
theorem C5_send_failure_aborts (st : AppState) (pre post : List Subscriber)
    (bad : Subscriber) (msg : String)
    (hsubs : st.subscriptions = pre ++ bad :: post)
    (hpre : ∀ w ∈ pre, w.alive = true) (hbad : bad.alive = false) :
    (send_data_to_subscribers st msg).1.delivered =
      st.delivered ++ pre.map (fun w => (w.sid, msg)) ∧
    (send_data_to_subscribers st msg).1.subscriptions = st.subscriptions ∧
    (send_data_to_subscribers st msg).2 = some .connectionClosed := by
  have h := sendLoop_split msg bad hbad pre post hpre
  refine ⟨?_, rfl, ?_⟩
  · show st.delivered ++ (sendLoop st.subscriptions msg).1 = _
    rw [hsubs, h]
  · show (sendLoop st.subscriptions msg).2 = _
    rw [hsubs, h]

/-- C5 witness: the amended behaviour on the live, closed, live state. -/
theorem C5_send_failure_aborts_witness :
    (send_data_to_subscribers mixedSubState sampleMsg).1.delivered =
      mixedSubState.delivered ++ [liveSub1].map (fun w => (w.sid, sampleMsg)) ∧
    (send_data_to_subscribers mixedSubState sampleMsg).1.subscriptions =
      mixedSubState.subscriptions ∧
    (send_data_to_subscribers mixedSubState sampleMsg).2 =
      some .connectionClosed :=
  C5_send_failure_aborts mixedSubState [liveSub1] [liveSub3] deadSub2
    sampleMsg rfl (by decide) rfl

/-- C6: confirmed — a create whose timestamp text fails the ISO-8601 parse is
rejected as a validation error before the handler body runs: the response is
the validation rejection (not OK), the whole process state — store included —
is unchanged, and listing afterwards returns exactly the rows from before. -/
theorem C6_invalid_timestamp_rejected (raw : RawProcessedAgentData)
    (st : AppState) (h : fromisoformat raw.agent_data.timestamp = none) :
    create_endpoint raw st = (st, .error .validationError) ∧
    list_processed_agent_data (create_endpoint raw st).1.db =
      list_processed_agent_data st.db := by
  have hv : validateProcessedAgentData raw = .error .validationError := by
    unfold validateProcessedAgentData
    rw [h]
  constructor
  · unfold create_endpoint
    rw [hv]
  · unfold create_endpoint
    rw [hv]

/-- C6 witness: the scenario input with timestamp text `"not-a-date"` is
rejected and the empty store stays empty. -/
theorem C6_invalid_timestamp_rejected_witness :
    create_endpoint rawBad initState = (initState, .error .validationError) ∧
    list_processed_agent_data (create_endpoint rawBad initState).1.db =
      list_processed_agent_data initState.db :=
  C6_invalid_timestamp_rejected rawBad initState (by decide)

/-- C7 counterexample: the create handler's caller-visible response is the
literal `{"message": "OK"}` body, which carries no record and no id — so
there is no "id returned by create" for the caller to read back: the
round-trip as claimed cannot even be performed from create's response. -/
theorem C7_counterexample :
    (create_processed_agent_data sampleInput initState).2 = .ok .messageOK ∧
    responseRecordId (create_processed_agent_data sampleInput initState).2 =
      none :=
  ⟨rfl, rfl⟩

/-- C7 amended: create assigns the store's next auto-increment id at commit
but returns only `{"message": "OK"}` (no id); an immediate read of that
assigned id yields a record whose road_state, user_id, x, y, z, latitude,
longitude and timestamp all equal the corresponding input fields.  The
freshness hypothesis is the store's primary-key invariant: no existing row
already carries the next auto-increment id. -/
theorem C7_roundtrip_on_assigned_id (st : AppState)
    (data : ProcessedAgentData) (hfresh : fetchone st.db st.db.nextId = none) :
    read_processed_agent_data st.db.nextId
        (create_processed_agent_data data st).1.db =
      .ok (.record
        { id := st.db.nextId
          road_state := data.road_state
          user_id := data.agent_data.user_id
          x := data.agent_data.accelerometer.x
          y := data.agent_data.accelerometer.y
          z := data.agent_data.accelerometer.z
          latitude := data.agent_data.gps.latitude
          longitude := data.agent_data.gps.longitude
          timestamp := data.agent_data.timestamp }) := by
  have hfetch : fetchone (insertRow st.db data) st.db.nextId =
      some
        { id := st.db.nextId
          road_state := data.road_state
          user_id := data.agent_data.user_id
          x := data.agent_data.accelerometer.x
          y := data.agent_data.accelerometer.y
          z := data.agent_data.accelerometer.z
          latitude := data.agent_data.gps.latitude
          longitude := data.agent_data.gps.longitude
          timestamp := data.agent_data.timestamp } := by
    unfold fetchone insertRow at *
    rw [find?_append_of_none _ _ _ hfresh]
    simp
  show read_processed_agent_data st.db.nextId (insertRow st.db data) = _
  unfold read_processed_agent_data read_body
  rw [hfetch]
  rfl

/-- C7 witness: the scenario input created over the empty store is read back
in full at the assigned id 1. -/
theorem C7_roundtrip_witness :
    read_processed_agent_data 1
        (create_processed_agent_data sampleInput initState).1.db =
      .ok (.record sampleRow) :=
  C7_roundtrip_on_assigned_id initState sampleInput rfl

/-- C8: confirmed — updating a present id replaces all eight mutable columns
in the single committed UPDATE while the id column (absent from the SET
list) is preserved, and a subsequent read of the same id returns exactly the
submitted fields under the unchanged id — never a mix of old and new
values. -/
theorem C8_update_then_read (db : Store) (rid : Int)
    (data : ProcessedAgentData) (row : ProcessedAgentDataInDB)
    (h : fetchone db rid = some row) :
    read_processed_agent_data rid (update_processed_agent_data rid data db).1 =
      .ok (.record (updatedRow rid (mkNewData data))) := by
  have hfetch := fetchone_applyUpdate db rid (mkNewData data) row h
  show read_processed_agent_data rid (applyUpdate db rid (mkNewData data)) = _
  unfold read_processed_agent_data read_body
  rw [hfetch]
  rfl

/-- C8 witness: replacing the sample row's eight fields at id 1, then reading
id 1, returns the new fields under id 1. -/
theorem C8_update_then_read_witness :
    read_processed_agent_data 1
        (update_processed_agent_data 1 sampleInput2 store1).1 =
      .ok (.record (updatedRow 1 (mkNewData sampleInput2))) :=
  C8_update_then_read store1 1 sampleInput2 sampleRow rfl

/-- C9 counterexample: a disconnect of a subscriber that is not in the
subscriptions set is not a no-op — `set.remove` raises `KeyError`, so the
unregister path errors instead of completing silently. -/
theorem C9_counterexample :
    websocket_disconnect initState liveSub1 = .error .keyError :=
  rfl

/-- C9 amended: removal from the registry raises `KeyError` when the
subscriber is absent (it is not a no-op); when the subscriber is present it
completes, removing exactly that subscriber: the subscriber is gone from the
resulting set, the database is untouched, and every other subscriber's
membership is preserved. -/
theorem C9_remove_semantics (st : AppState) (w : Subscriber) :
    (w ∉ st.subscriptions → websocket_disconnect st w = .error .keyError) ∧
    (w ∈ st.subscriptions → ∃ st2 : AppState,
      websocket_disconnect st w = .ok st2 ∧
      w ∉ st2.subscriptions ∧ st2.db = st.db ∧
      ∀ v : Subscriber, v ≠ w →
        (v ∈ st2.subscriptions ↔ v ∈ st.subscriptions)) := by
  constructor
  · intro habs
    have hc : st.subscriptions.contains w = false :=
      (contains_false_iff st.subscriptions w).mpr habs
    unfold websocket_disconnect pySetRemove
    rw [hc]
    rfl
  · intro hmem
    have hc : st.subscriptions.contains w = true := by
      cases hb : st.subscriptions.contains w with
      | true => rfl
      | false => exact absurd ((contains_false_iff _ _).mp hb) (by simp [hmem])
    refine ⟨{ st with subscriptions :=
        st.subscriptions.filter (fun s => !(s == w)) }, ?_, ?_, rfl, ?_⟩
    · unfold websocket_disconnect pySetRemove
      rw [hc]
      rfl
    · intro hmem2
      have := (List.mem_filter.mp hmem2).2
      simp at this
    · intro v hv
      constructor
      · intro hv2
        exact (List.mem_filter.mp hv2).1
      · intro hv2
        refine List.mem_filter.mpr ⟨hv2, ?_⟩
        simp [hv]

/-- C9 witness: the amended semantics applied with subscriber 2 absent from
the one-subscriber registry (raises `KeyError`). -/
theorem C9_remove_semantics_witness :
    websocket_disconnect ⟨emptyStore, [liveSub1], []⟩ deadSub2 =
      .error .keyError :=
  (C9_remove_semantics ⟨emptyStore, [liveSub1], []⟩ deadSub2).1 (by decide)

/-- C10: confirmed — the store query of each of read, update and delete uses
only the handler's `record_id` parameter (a query parameter under FastAPI's
binding, since it does not match the `{processed_agent_data_id}` path-segment
name): changing the path segment's value while keeping `record_id` fixed
changes nothing about which row is selected, updated or deleted, and the
routed read coincides with the handler applied to `record_id` alone. -/
theorem C10_path_segment_ignored (p p2 rid : Int)
    (data : ProcessedAgentData) (db : Store) :
    read_endpoint ⟨p, rid⟩ db = read_endpoint ⟨p2, rid⟩ db ∧
    update_endpoint ⟨p, rid⟩ data db = update_endpoint ⟨p2, rid⟩ data db ∧
    delete_endpoint ⟨p, rid⟩ db = delete_endpoint ⟨p2, rid⟩ db ∧
    read_endpoint ⟨p, rid⟩ db = read_processed_agent_data rid db :=
  ⟨rfl, rfl, rfl, rfl⟩

end MainPy
